import Mathlib

/-!
Shallow embedding of `core/services/irita_subscriber.go` (package `services`):
the Irita event-subscription tracker.  External collaborators (the irita SDK
client, `encoding/json`, the run manager) are modelled as explicit function
parameters; goroutine interleavings are modelled as explicit message traces.
-/

namespace IritaSubscriber

/-- One raw event record of a block's event batch: an event type plus
attribute key/value pairs (the SDK's `types.Event`). -/
structure Event where
  type : String
  attributes : List (String × String)
deriving DecidableEq, Repr

/-- The SDK accessor `Attributes.GetValue`: the value of the first attribute
with the given key, or the empty string when the key is absent. -/
def getValue (attrs : List (String × String)) (key : String) : String :=
  match attrs.find? (fun p => p.1 == key) with
  | some p => p.2
  | none => ""

/-- The SDK accessor `Events.Filter`: the records whose event type equals the
given one, in order. -/
def eventsFilter (events : List Event) (eventType : String) : List Event :=
  events.filter (fun e => e.type == eventType)

/-- The ID-extraction loop of `Service.GetServiceResquest` (source lines
209-225): over the records of type `new_batch_request_provider`, compare the
`service_name` and `provider` attributes with the interest's, decode the
`requests` attribute and append the decoded IDs to the accumulator.
`decode` stands for `json.Unmarshal` into `[]string`; `none` is a decode
error, which the code discards (`_ = json.Unmarshal(...)`), so a record whose
list fails to decode contributes the empty list. -/
def matchRequestIds (decode : String → Option (List String))
    (events : List Event) (serviceName provider : String) : List String :=
  (eventsFilter events "new_batch_request_provider").foldl
    (fun ids e =>
      if getValue e.attributes "service_name" == serviceName
          && getValue e.attributes "provider" == provider then
        ids ++ ((decode (getValue e.attributes "requests")).getD [])
      else ids)
    []

/-- Opaque request-detail payload (`service.QueryServiceRequestResponse`). -/
structure QueryServiceRequestResponse where
  payload : String
deriving DecidableEq, Repr

/-- The resolution loop of `Service.GetServiceResquest` (source lines
226-232): one call to `s.Client.Service.QueryServiceRequest` per ID.  `query`
returns the response value together with a success flag; the code discards
the error (`request, _ := ...`) and appends the returned value
unconditionally. -/
def resolveIds (query : String → QueryServiceRequestResponse × Bool)
    (ids : List String) : List QueryServiceRequestResponse :=
  ids.foldl (fun requests reqID => requests ++ [(query reqID).1]) []

/-- `Service.GetServiceResquest` (name as in the source): extract the matching
request IDs from the batch, then resolve each. -/
def getServiceResquest (decode : String → Option (List String))
    (query : String → QueryServiceRequestResponse × Bool)
    (events : List Event) (serviceName provider : String) :
    List QueryServiceRequestResponse :=
  resolveIds query (matchRequestIds decode events serviceName provider)

/-! ### The subscription registry (`jobSubscriptions` map) -/

/-- Go map assignment `m[k] = v` on an association-list model: replace the
entry for `k` if present, otherwise append a new one. -/
def mapInsert (m : List (String × Nat)) (k : String) (v : Nat) :
    List (String × Nat) :=
  if m.any (fun p => p.1 == k) then
    m.map (fun p => if p.1 == k then (k, v) else p)
  else
    m ++ [(k, v)]

/-- Go map deletion `delete(m, k)`. -/
def mapDelete (m : List (String × Nat)) (k : String) : List (String × Nat) :=
  m.filter (fun p => p.1 != k)

/-- Go map read `v, ok := m[k]` (the `ok`-carrying form). -/
def mapLookup (m : List (String × Nat)) (k : String) : Option Nat :=
  (m.find? (fun p => p.1 == k)).map (fun p => p.2)

/-- Number of registry entries stored under key `k`. -/
def countKey (m : List (String × Nat)) (k : String) : Nat :=
  (m.filter (fun p => p.1 == k)).length

/-- State of a `Service` value: the `jobSubscriptions` registry (job ID string
to subscription handle), the `numberJobSubscriptions` gauge, the sequence of
handles passed to `Client.Unsubscribe`, and the `done` channel (whether it is
closed, and how many `close` calls were issued). -/
structure ServiceState where
  jobSubscriptions : List (String × Nat)
  gauge : Nat
  unsubCalls : List Nat
  doneClosed : Bool
  closeCount : Nat
deriving DecidableEq, Repr

/-- `Service.Start`: installs a fresh (open) `done` channel. -/
def serviceStart (s : ServiceState) : ServiceState :=
  { s with doneClosed := false }

/-- `Service.Stop`: `close(s.done)`. -/
def serviceStop (s : ServiceState) : ServiceState :=
  { s with doneClosed := true, closeCount := s.closeCount + 1 }

/-- `Service.addSubscription` (source lines 132-136): store the handle under
the job's ID.  The gauge is not touched here. -/
def addSubscription (s : ServiceState) (jobID : String) (sub : Nat) :
    ServiceState :=
  { s with jobSubscriptions := mapInsert s.jobSubscriptions jobID sub }

/-- `Service.RemoveJob` (source lines 118-130): read-and-delete the entry,
set the gauge to the new map size, and either return the not-found error
(`some msg`) or unsubscribe the retrieved handle and return `none`. -/
def removeJob (s : ServiceState) (jobID : String) :
    ServiceState × Option String :=
  let sub? := mapLookup s.jobSubscriptions jobID
  let subs := mapDelete s.jobSubscriptions jobID
  let s1 := { s with jobSubscriptions := subs, gauge := subs.length }
  match sub? with
  | none =>
      (s1, some ("JobSubscriber#RemoveJob: job " ++ jobID ++ " not found"))
  | some sub =>
      ({ s1 with unsubCalls := s1.unsubCalls ++ [sub] }, none)

/-! ### Jobs and the worker loop -/

/-- One `models.Initiator` of kind `InitiatorIritaLog`: the interest's service
name and provider identity. -/
structure Initiator where
  iritaServiceName : String
  iritaServiceProvider : String
deriving DecidableEq, Repr

/-- Modelled from the spec: `models.JobSpec` (not under `src/`) as the core
reads it — an identifier, the initiators returned by
`InitiatorsFor(InitiatorIritaLog)`, and an optionally open-ended activity
window of start/end timestamps. -/
structure JobSpec where
  id : String
  initiators : List Initiator
  startAt : Option Nat
  endAt : Option Nat
deriving DecidableEq, Repr

/-- Modelled from the spec: `JobSpec.Started(now)` — the job has started when
it has no start bound or the start bound is not after `now`. -/
def JobSpec.Started (j : JobSpec) (now : Nat) : Bool :=
  match j.startAt with
  | none => true
  | some t => t ≤ now

/-- Modelled from the spec: `JobSpec.Ended(now)` — the job has ended when it
has an end bound and `now` is after it. -/
def JobSpec.Ended (j : JobSpec) (now : Nat) : Bool :=
  match j.endAt with
  | none => false
  | some t => t < now

/-- Modelled from the spec: a `store.ServiceRequset` entry stashed by
`store.AddToMemory` — the resolved request plus the provider identity, keyed
by the run ID. -/
structure ServiceRequset where
  requestResponse : QueryServiceRequestResponse
  provider : String
deriving DecidableEq, Repr

/-- Observable state of one `Service.Subscribe` worker loop: how many times
`RunManager.Create` was invoked, how many trigger errors were logged, the
request-memory side-store entries written, and how many `Client.Unsubscribe`
calls this worker issued. -/
structure WorkerState where
  createCalls : Nat
  errorsLogged : Nat
  memory : List (Nat × ServiceRequset)
  unsubCount : Nat
deriving DecidableEq, Repr

/-- One firing of the worker's `select`: either a resolved request arrives on
`ch` (carrying the wall-clock time at processing and the outcome of the
`RunManager.Create` call the worker would make, `none` meaning the trigger
returned an error) or the closed `done` channel is read. -/
inductive WorkerMsg where
  | request (r : QueryServiceRequestResponse) (now : Nat)
      (createResult : Option Nat)
  | done
deriving DecidableEq, Repr

/-- Outcome of one iteration of the worker loop: keep looping, or `return`
out of `Service.Subscribe`. -/
inductive StepResult where
  | continued (s : WorkerState)
  | returned (s : WorkerState)
deriving DecidableEq, Repr

/-- One iteration of the `for { select { ... } }` loop of `Service.Subscribe`
(source lines 177-207).  On a request: if the activity window check
`!job.Started(now) || job.Ended(now)` fires, `return` with no trigger call;
otherwise call `RunManager.Create` — on error log it and `return`, on success
stash the request in the side-store and keep looping.  On `done`: call
`Client.Unsubscribe` and keep looping (the branch has no `return`
statement). -/
def workerStep (job : JobSpec) (initiator : Initiator) (s : WorkerState) :
    WorkerMsg → StepResult
  | .request r now createResult =>
      if !(job.Started now) || job.Ended now then
        .returned s
      else
        match createResult with
        | none =>
            .returned { s with
              createCalls := s.createCalls + 1
              errorsLogged := s.errorsLogged + 1 }
        | some runID =>
            .continued { s with
              createCalls := s.createCalls + 1
              memory := s.memory ++
                [(runID, ⟨r, initiator.iritaServiceProvider⟩)] }
  | .done =>
      .continued { s with unsubCount := s.unsubCount + 1 }

/-- Run the worker loop over a finite trace of `select` firings.  The Boolean
is `true` when the loop `return`ed before exhausting the trace (the remaining
firings are then never processed). -/
def workerRun (job : JobSpec) (initiator : Initiator) :
    WorkerState → List WorkerMsg → WorkerState × Bool
  | s, [] => (s, false)
  | s, m :: ms =>
      match workerStep job initiator s m with
      | .returned s1 => (s1, true)
      | .continued s1 => workerRun job initiator s1 ms

/-- Registry effect of `Service.AddJob` once every spawned `Subscribe` worker
has opened its subscription and reached `addSubscription`: each initiator's
worker registers the handle the event source returned to it, every one under
the same key `job.ID.String()` (source lines 112-116 and 174). -/
def addJobRegistered (s : ServiceState) (job : JobSpec) (handles : List Nat) :
    ServiceState :=
  (job.initiators.zip handles).foldl
    (fun st p => addSubscription st job.id p.2) s

/-! ### The tracker (`IritaServiceTracker`) -/

/-- State of an `IritaServiceTracker`: the `started` flag, the owned
`Service` state, and how many `Subscribe` goroutines have been spawned. -/
structure TrackerState where
  started : Bool
  service : ServiceState
  spawnedWorkers : Nat
deriving DecidableEq, Repr

/-- `IritaServiceTracker.Start` (source lines 46-66): error out if already
started; otherwise start the service, set the flag, and for each stored job
of kind `InitiatorIritaLog` (passed in as `jobs`) spawn one `Subscribe`
goroutine per initiator.  `some msg` is an error return. -/
def trackerStart (t : TrackerState) (jobs : List JobSpec) :
    TrackerState × Option String :=
  if t.started then
    (t, some "Irita service tracker already started")
  else
    let t1 := { t with service := serviceStart t.service, started := true }
    (jobs.foldl
      (fun acc j =>
        { acc with spawnedWorkers := acc.spawnedWorkers + j.initiators.length })
      t1, none)

/-- `IritaServiceTracker.Stop` (source lines 68-75): only when started, stop
the service (closing `done`) and clear the flag. -/
def trackerStop (t : TrackerState) : TrackerState :=
  if t.started then
    { t with service := serviceStop t.service, started := false }
  else t

/-- `IritaServiceTracker.AddJob` (source lines 81-88): a no-op unless
started; otherwise `Service.AddJob` spawns one `Subscribe` goroutine per
initiator of the job. -/
def trackerAddJob (t : TrackerState) (job : JobSpec) : TrackerState :=
  if !t.started then t
  else { t with spawnedWorkers := t.spawnedWorkers + job.initiators.length }

/-- `IritaServiceTracker.RemoveJob` (source lines 90-92): delegates directly
to `Service.RemoveJob`, with no check of the `started` flag. -/
def trackerRemoveJob (t : TrackerState) (jobID : String) :
    TrackerState × Option String :=
  let p := removeJob t.service jobID
  ({ t with service := p.1 }, p.2)

/-! ### Concrete fixtures -/

/-- A sample interest. -/
def init0 : Initiator :=
  { iritaServiceName := "svcA", iritaServiceProvider := "p1" }

/-- A second, distinct interest. -/
def init1 : Initiator :=
  { iritaServiceName := "svcB", iritaServiceProvider := "p2" }

/-- A job with a fully open activity window and one interest. -/
def openWindowJob : JobSpec :=
  { id := "job-1", initiators := [init0], startAt := none, endAt := none }

/-- A job whose activity window ended at time 10. -/
def endedJob : JobSpec :=
  { id := "job-9", initiators := [init0], startAt := none, endAt := some 10 }

/-- A job declaring two interests. -/
def twoInterestJob : JobSpec :=
  { id := "job-2", initiators := [init0, init1], startAt := none, endAt := none }

/-- A sample resolved request payload. -/
def req0 : QueryServiceRequestResponse := { payload := "req-42" }

/-- A fresh worker observation state. -/
def ws0 : WorkerState :=
  { createCalls := 0, errorsLogged := 0, memory := [], unsubCount := 0 }

/-- A service with an empty registry and an accurate (zero) gauge. -/
def emptyService : ServiceState :=
  { jobSubscriptions := [], gauge := 0, unsubCalls := [], doneClosed := false,
    closeCount := 0 }

/-- A tracker that has been started. -/
def startedTracker : TrackerState :=
  { started := true, service := emptyService, spawnedWorkers := 0 }

/-- A tracker that was never started. -/
def stoppedTracker : TrackerState :=
  { started := false, service := emptyService, spawnedWorkers := 0 }

/-! ### Worker-loop claims -/

/-- C1, counterexample.  The claim says the worker's loop does not terminate
on a trigger failure and continues waiting for further requests.  On the
concrete trace below, the first in-window request's `RunManager.Create` call
fails, and the loop `return`s at once: the run reports terminated (`true`)
after one trigger call, and the second, well-formed request is never
processed (no second trigger call, nothing stashed). -/
theorem C1_counterexample :
    workerRun openWindowJob init0 ws0
        [WorkerMsg.request req0 5 none, WorkerMsg.request req0 6 (some 7)]
      = ({ createCalls := 1, errorsLogged := 1, memory := [],
           unsubCount := 0 }, true) := by
  rfl

/-- C1, amended.  On a trigger error for an in-window request, the worker
logs the error once, stashes nothing in the request-memory side-store, and
terminates its loop immediately: the remaining trace is never processed. -/
theorem C1_trigger_error (job : JobSpec) (initiator : Initiator)
    (s : WorkerState) (r : QueryServiceRequestResponse) (now : Nat)
    (rest : List WorkerMsg)
    (hstart : job.Started now = true) (hend : job.Ended now = false) :
    workerRun job initiator s (WorkerMsg.request r now none :: rest)
      = ({ s with createCalls := s.createCalls + 1,
                  errorsLogged := s.errorsLogged + 1 }, true) := by
  simp [workerRun, workerStep, hstart, hend]

/-- C1, witness for `C1_trigger_error` at a concrete in-window request. -/
theorem C1_witness :
    workerRun openWindowJob init0 ws0 [WorkerMsg.request req0 5 none]
      = ({ ws0 with createCalls := 1, errorsLogged := 1 }, true) :=
  C1_trigger_error openWindowJob init0 ws0 req0 5 [] rfl rfl

/-- C2, evaluation at the failing input.  After the shutdown signal has
fired, the worker's `done` branch unsubscribes but does not `return`: over
the trace below the worker unsubscribes twice, still processes a request
in between (one trigger call, one side-store write), and its loop never
terminates (`false`). -/
theorem C2_shutdown_eval :
    workerRun openWindowJob init0 ws0
        [WorkerMsg.done, WorkerMsg.request req0 5 (some 7), WorkerMsg.done]
      = ({ createCalls := 1, errorsLogged := 0,
           memory := [(7, ⟨req0, "p1"⟩)], unsubCount := 2 }, false) := by
  rfl

/-- C7: when the activity window check fires (the job has not started, or it
has ended, at the processing time), the worker performs no `RunManager.Create`
call (its observation state is returned unchanged) and the loop terminates
immediately, never processing the rest of the trace. -/
theorem C7_window_guard (job : JobSpec) (initiator : Initiator)
    (s : WorkerState) (r : QueryServiceRequestResponse) (now : Nat)
    (createResult : Option Nat) (rest : List WorkerMsg)
    (h : job.Started now = false ∨ job.Ended now = true) :
    workerRun job initiator s (WorkerMsg.request r now createResult :: rest)
      = (s, true) := by
  rcases h with h | h <;> simp [workerRun, workerStep, h]

/-- C7, witness: a job whose end timestamp (10) is in the past at processing
time 20 triggers zero run creations and immediate loop termination. -/
theorem C7_witness :
    endedJob.Ended 20 = true ∧
    workerRun endedJob init0 ws0 [WorkerMsg.request req0 20 (some 7)]
      = (ws0, true) :=
  ⟨rfl, C7_window_guard endedJob init0 ws0 req0 20 (some 7) [] (Or.inr rfl)⟩

/-! ### Matcher and resolver claims -/

/-- Go's append-in-a-loop over a list, as a map. -/
theorem foldl_append_singleton {α β : Type} (f : α → β) (acc : List β)
    (xs : List α) :
    xs.foldl (fun a x => a ++ [f x]) acc = acc ++ xs.map f := by
  induction xs generalizing acc with
  | nil => simp
  | cons x xs ih => simp [ih]

/-- The resolver loop appends one `query` result per ID, in order. -/
theorem resolveIds_eq_map (query : String → QueryServiceRequestResponse × Bool)
    (ids : List String) :
    resolveIds query ids = ids.map (fun reqID => (query reqID).1) :=
  foldl_append_singleton _ [] ids

/-- Go's conditional append-in-a-loop, as a flat map over guarded
contributions. -/
theorem foldl_guarded_append {α β : Type} (c : α → Bool) (g : α → List β)
    (acc : List β) (xs : List α) :
    xs.foldl (fun a x => if c x then a ++ g x else a) acc
      = acc ++ xs.flatMap (fun x => if c x then g x else []) := by
  induction xs generalizing acc with
  | nil => simp
  | cons x xs ih => by_cases h : c x <;> simp [h, ih]

/-- The per-record ID contribution inside the matching loop. -/
theorem matchRequestIds_eq_flatMap (decode : String → Option (List String))
    (events : List Event) (serviceName provider : String) :
    matchRequestIds decode events serviceName provider
      = (eventsFilter events "new_batch_request_provider").flatMap
          (fun e =>
            if getValue e.attributes "service_name" == serviceName
                && getValue e.attributes "provider" == provider then
              (decode (getValue e.attributes "requests")).getD []
            else []) := by
  unfold matchRequestIds
  rw [foldl_guarded_append
      (fun e => getValue e.attributes "service_name" == serviceName
          && getValue e.attributes "provider" == provider)
      (fun e => (decode (getValue e.attributes "requests")).getD [])
      [] (eventsFilter events "new_batch_request_provider")]
  rw [List.nil_append]

/-- C4, counterexample.  Two matching `new_batch_request_provider` records
each decode to the same request ID `a`; the matcher returns `a` twice — the
ID appears twice in the result, so duplicates across records are not
collapsed as the claim states. -/
theorem C4_counterexample :
    matchRequestIds
        (fun s => if s == "L1" then some ["a"] else none)
        [⟨"new_batch_request_provider",
          [("service_name", "svcA"), ("provider", "p1"), ("requests", "L1")]⟩,
         ⟨"new_batch_request_provider",
          [("service_name", "svcA"), ("provider", "p1"), ("requests", "L1")]⟩]
        "svcA" "p1"
      = ["a", "a"] ∧
    (matchRequestIds
        (fun s => if s == "L1" then some ["a"] else none)
        [⟨"new_batch_request_provider",
          [("service_name", "svcA"), ("provider", "p1"), ("requests", "L1")]⟩,
         ⟨"new_batch_request_provider",
          [("service_name", "svcA"), ("provider", "p1"), ("requests", "L1")]⟩]
        "svcA" "p1").count "a" = 2 := by
  constructor <;> rfl

/-- C4, amended.  The matcher returns exactly the request IDs decoded from
the `new_batch_request_provider` records whose service-name and provider
attributes equal the interest's, concatenated in record order with duplicates
retained (no deduplication); a record whose identifier list fails to decode
contributes zero IDs, and no input aborts the computation.  An ID is in the
result exactly when some matching record's decoded list holds it. -/
theorem C4_matcher_amended (decode : String → Option (List String))
    (events : List Event) (serviceName provider : String) :
    matchRequestIds decode events serviceName provider
      = (eventsFilter events "new_batch_request_provider").flatMap
          (fun e =>
            if getValue e.attributes "service_name" == serviceName
                && getValue e.attributes "provider" == provider then
              (decode (getValue e.attributes "requests")).getD []
            else [])
    ∧ ∀ reqID : String,
        reqID ∈ matchRequestIds decode events serviceName provider
          ↔ ∃ e ∈ events, e.type = "new_batch_request_provider"
              ∧ getValue e.attributes "service_name" = serviceName
              ∧ getValue e.attributes "provider" = provider
              ∧ reqID ∈ (decode (getValue e.attributes "requests")).getD [] := by
  refine ⟨matchRequestIds_eq_flatMap decode events serviceName provider, ?_⟩
  intro reqID
  rw [matchRequestIds_eq_flatMap]
  simp only [List.mem_flatMap, eventsFilter, List.mem_filter, beq_iff_eq]
  constructor
  · rintro ⟨e, ⟨he, ht⟩, hmem⟩
    by_cases h : getValue e.attributes "service_name" == serviceName
        && getValue e.attributes "provider" == provider
    · rcases Bool.and_eq_true _ _ |>.mp h with ⟨h1, h2⟩
      exact ⟨e, he, ht, beq_iff_eq.mp h1, beq_iff_eq.mp h2, by simpa [h] using hmem⟩
    · simp [h] at hmem
  · rintro ⟨e, he, ht, h1, h2, hmem⟩
    refine ⟨e, ⟨he, ht⟩, ?_⟩
    simp [h1, h2, hmem]

/-- C3, counterexample.  A single matched ID whose detail lookup fails: the
claim says the failed ID contributes no element (the output should be
empty), but the resolver appends the returned zero value anyway, so the
output has one element. -/
theorem C3_counterexample :
    ((fun _ : String => ((⟨""⟩ : QueryServiceRequestResponse), false)) "a").2
        = false ∧
    resolveIds (fun _ => (⟨""⟩, false)) ["a"]
      = [(⟨""⟩ : QueryServiceRequestResponse)] := by
  constructor <;> rfl

/-- C3, amended.  A lookup failure for one ID does not abort resolution of
the remaining IDs, but the failed ID is not dropped: the value the lookup
returned is appended regardless of the discarded error, so the output holds
exactly one element per input ID — successful or not — in input order. -/
theorem C3_resolver_amended
    (query : String → QueryServiceRequestResponse × Bool)
    (ids1 ids2 : List String) (bad : String) :
    resolveIds query (ids1 ++ bad :: ids2)
      = resolveIds query ids1 ++ (query bad).1 :: resolveIds query ids2
    ∧ ∀ ids : List String, (resolveIds query ids).length = ids.length := by
  constructor
  · simp [resolveIds_eq_map]
  · intro ids
    simp [resolveIds_eq_map]

/-! ### Registry claims -/

/-- C5, counterexample.  Registering a handle grows the registry to size 1
but leaves the gauge at 0: the gauge is not updated on register, contrary to
the claim that every registry mutation updates it. -/
theorem C5_counterexample :
    (addSubscription emptyService "job-1" 3).jobSubscriptions.length = 1 ∧
    (addSubscription emptyService "job-1" 3).gauge = 0 := by
  constructor <;> rfl

/-- C5, amended.  Only removal updates the gauge: after every `RemoveJob` the
gauge equals the registry's size, while `addSubscription` leaves the gauge
unchanged — so right after a register the gauge can differ from the size. -/
theorem C5_gauge_amended :
    (∀ (s : ServiceState) (jobID : String),
        ((removeJob s jobID).1).gauge
          = ((removeJob s jobID).1).jobSubscriptions.length)
    ∧ (∀ (s : ServiceState) (jobID : String) (sub : Nat),
        (addSubscription s jobID sub).gauge = s.gauge) := by
  constructor
  · intro s jobID
    unfold removeJob
    cases mapLookup s.jobSubscriptions jobID <;> rfl
  · intro s jobID sub
    rfl

/-- Deleting an absent key leaves the map unchanged. -/
theorem mapDelete_eq_of_lookup_none (m : List (String × Nat)) (k : String)
    (h : mapLookup m k = none) : mapDelete m k = m := by
  rw [mapLookup, Option.map_eq_none', List.find?_eq_none] at h
  rw [mapDelete, List.filter_eq_self]
  intro p hp
  simpa using h p hp

/-- C8: `RemoveJob` on a job identifier with no registered handle returns the
not-found error, leaves the stored handles (hence the registry's size)
unchanged, and issues no unsubscribe call. -/
theorem C8_remove_not_found (s : ServiceState) (jobID : String)
    (h : mapLookup s.jobSubscriptions jobID = none) :
    (removeJob s jobID).1.jobSubscriptions = s.jobSubscriptions
    ∧ (removeJob s jobID).1.unsubCalls = s.unsubCalls
    ∧ (removeJob s jobID).2
        = some ("JobSubscriber#RemoveJob: job " ++ jobID ++ " not found") := by
  unfold removeJob
  rw [h, mapDelete_eq_of_lookup_none s.jobSubscriptions jobID h]
  exact ⟨rfl, rfl, rfl⟩

/-- C8, witness: removing the never-registered identifier `nope` from an
empty registry. -/
theorem C8_witness :
    (removeJob emptyService "nope").1.jobSubscriptions
        = emptyService.jobSubscriptions
    ∧ (removeJob emptyService "nope").1.unsubCalls = emptyService.unsubCalls
    ∧ (removeJob emptyService "nope").2
        = some ("JobSubscriber#RemoveJob: job " ++ "nope" ++ " not found") :=
  C8_remove_not_found emptyService "nope" rfl

/-- An absent key means zero entries under it. -/
theorem countKey_eq_zero_of_any_false (m : List (String × Nat)) (k : String)
    (h : m.any (fun p => p.1 == k) = false) : countKey m k = 0 := by
  rw [countKey, List.length_eq_zero, List.filter_eq_nil_iff]
  intro p hp
  exact List.any_eq_false.mp h p hp

/-- A present key means at least one entry under it. -/
theorem countKey_pos_of_any_true (m : List (String × Nat)) (k : String)
    (h : m.any (fun p => p.1 == k) = true) : 1 ≤ countKey m k := by
  rcases List.any_eq_true.mp h with ⟨p, hp, hk⟩
  have : p ∈ m.filter (fun p => p.1 == k) := List.mem_filter.mpr ⟨hp, hk⟩
  calc 1 ≤ [p].length := le_refl 1
    _ ≤ (m.filter (fun p => p.1 == k)).length := by
        simpa using List.length_pos.mpr (List.ne_nil_of_mem this)
    _ = countKey m k := rfl

/-- Replacing every entry stored under `k` by `(k, v)` keeps the number of
entries under `k` (and every other key's entries untouched). -/
theorem countKey_map_replace (m : List (String × Nat)) (k : String) (v : Nat) :
    countKey (m.map (fun p => if p.1 == k then (k, v) else p)) k
      = countKey m k := by
  simp only [countKey, ← List.countP_eq_length_filter, List.countP_map]
  apply List.countP_congr
  intro p _
  by_cases h : p.1 == k <;> simp [h, Function.comp]

/-- Go map assignment leaves exactly one entry under the assigned key, as
long as the map held at most one beforehand. -/
theorem countKey_mapInsert (m : List (String × Nat)) (k : String) (v : Nat)
    (h : countKey m k ≤ 1) : countKey (mapInsert m k v) k = 1 := by
  unfold mapInsert
  by_cases hany : m.any (fun p => p.1 == k) = true
  · rw [if_pos hany, countKey_map_replace]
    exact le_antisymm h (countKey_pos_of_any_true m k hany)
  · rw [if_neg hany]
    have h0 := countKey_eq_zero_of_any_false m k (Bool.eq_false_iff.mpr hany)
    simp only [countKey, List.filter_append] at *
    simp [List.length_eq_zero.mp h0]

/-- Repeated assignments under one key keep exactly one entry under it. -/
theorem countKey_foldl_register (k : String) (l : List (Initiator × Nat))
    (s : ServiceState)
    (h : countKey s.jobSubscriptions k = 1) :
    countKey
        ((l.foldl (fun st p => addSubscription st k p.2) s).jobSubscriptions)
        k = 1 := by
  induction l generalizing s with
  | nil => exact h
  | cons p l ih =>
      exact ih _ (countKey_mapInsert s.jobSubscriptions k p.2 (le_of_eq h))

/-- Once every worker spawned for a job has registered, the registry holds
exactly one entry under the job's identifier, provided it held at most one
before and at least one worker registered. -/
theorem countKey_addJobRegistered (s : ServiceState) (job : JobSpec)
    (handles : List Nat)
    (hkey : countKey s.jobSubscriptions job.id ≤ 1)
    (hne : job.initiators.zip handles ≠ []) :
    countKey ((addJobRegistered s job handles).jobSubscriptions) job.id
      = 1 := by
  unfold addJobRegistered
  rcases hzip : job.initiators.zip handles with _ | ⟨p, l⟩
  · exact absurd hzip hne
  · rw [List.foldl_cons]
    exact countKey_foldl_register job.id l _
      (countKey_mapInsert s.jobSubscriptions job.id p.2 hkey)

/-- C6, counterexample.  A job declaring two interests is registered twice
(each registration wave supplying one handle per interest): the registry ends
with a single entry — one handle for two (job, interest) pairs, holding only
the last handle registered — so it does not contain one handle per
(job, interest) pair as the claim states. -/
theorem C6_counterexample :
    twoInterestJob.initiators.length = 2 ∧
    ((addJobRegistered (addJobRegistered emptyService twoInterestJob [1, 2])
        twoInterestJob [3, 4]).jobSubscriptions).length = 1 ∧
    mapLookup
        ((addJobRegistered (addJobRegistered emptyService twoInterestJob [1, 2])
            twoInterestJob [3, 4]).jobSubscriptions)
        twoInterestJob.id = some 4 := by
  refine ⟨rfl, rfl, rfl⟩

/-- C6, amended.  Registration keys by job identifier alone: a job added
twice (any handle assignments, at least one interest) leaves the registry
with exactly one handle under the job's identifier — replacement, never
accumulation — though not one handle per (job, interest) pair. -/
theorem C6_register_amended (s : ServiceState) (job : JobSpec)
    (hs1 hs2 : List Nat)
    (hkey : countKey s.jobSubscriptions job.id ≤ 1)
    (hne : job.initiators ≠ [])
    (h1 : hs1.length = job.initiators.length)
    (h2 : hs2.length = job.initiators.length) :
    countKey
        (addJobRegistered (addJobRegistered s job hs1) job hs2).jobSubscriptions
        job.id = 1 := by
  have hz : ∀ hs : List Nat, hs.length = job.initiators.length →
      job.initiators.zip hs ≠ [] := by
    intro hs hlen hcontra
    have : job.initiators = [] := by
      have hlz : (job.initiators.zip hs).length = 0 := by simp [hcontra]
      rw [List.length_zip, hlen, Nat.min_self, List.length_eq_zero] at hlz
      exact hlz
    exact hne this
  have first := countKey_addJobRegistered s job hs1 hkey (hz hs1 h1)
  exact countKey_addJobRegistered _ job hs2 (le_of_eq first) (hz hs2 h2)

/-- C6, witness: the two-interest job registered twice over an empty
registry keeps exactly one entry under its identifier. -/
theorem C6_witness :
    countKey
        ((addJobRegistered (addJobRegistered emptyService twoInterestJob [1, 2])
            twoInterestJob [3, 4]).jobSubscriptions)
        twoInterestJob.id = 1 :=
  C6_register_amended emptyService twoInterestJob [1, 2] [3, 4]
    (by decide) (by decide) (by decide) (by decide)

/-! ### Tracker lifecycle claims -/

/-- C9: calling `Start` while already started returns the already-started
error and changes no tracker state, and `Stop` is idempotent — a second
`Stop` right after a first is the identity, so the shutdown signal is not
fired again and no state changes. -/
theorem C9_lifecycle :
    (∀ (t : TrackerState) (jobs : List JobSpec), t.started = true →
        trackerStart t jobs
          = (t, some "Irita service tracker already started"))
    ∧ (∀ t : TrackerState, trackerStop (trackerStop t) = trackerStop t) := by
  constructor
  · intro t jobs h
    simp [trackerStart, h]
  · intro t
    by_cases h : t.started <;> simp [trackerStop, h]

/-- C9, witness: starting an already-started tracker errors and leaves it
untouched. -/
theorem C9_witness :
    trackerStart startedTracker []
      = (startedTracker, some "Irita service tracker already started") :=
  C9_lifecycle.1 startedTracker [] rfl

/-- C10: the tracker's `RemoveJob` ignores the `started` flag — for either
flag value it acts directly on the registry, returning exactly what
`Service.RemoveJob` returns — whereas `AddJob` is the identity whenever the
tracker is not started. -/
theorem C10_remove_unguarded :
    (∀ (t : TrackerState) (b : Bool) (jobID : String),
        trackerRemoveJob { t with started := b } jobID
          = ({ t with started := b, service := (removeJob t.service jobID).1 },
             (removeJob t.service jobID).2))
    ∧ (∀ (t : TrackerState) (job : JobSpec), t.started = false →
        trackerAddJob t job = t) := by
  constructor
  · intro t b jobID
    rfl
  · intro t job h
    simp [trackerAddJob, h]

/-- C10, witness: adding a job to a never-started tracker changes nothing. -/
theorem C10_witness :
    trackerAddJob stoppedTracker twoInterestJob = stoppedTracker :=
  C10_remove_unguarded.2 stoppedTracker twoInterestJob rfl

end IritaSubscriber
